import Mathlib

/-!
Shallow embedding of `OpenFIREshared.h` (OpenFIRE-Boards): the pin-function
catalog, the board preset registry, the layout-position tables and the serial
command code space, together with proofs of the spec's properties.
-/

/-! ### Pin function catalog (`boardInputs_e`) -/

def unavailable : Int := -2
def btnUnmapped : Int := -1
def btnTrigger : Int := 0
def btnGunA : Int := 1
def btnGunB : Int := 2
def btnGunC : Int := 3
def btnStart : Int := 4
def btnSelect : Int := 5
def btnGunUp : Int := 6
def btnGunDown : Int := 7
def btnGunLeft : Int := 8
def btnGunRight : Int := 9
def btnPedal : Int := 10
def btnPedal2 : Int := 11
def btnPump : Int := 12
def btnHome : Int := 13
def rumblePin : Int := 14
def solenoidPin : Int := 15
def rumbleSwitch : Int := 16
def solenoidSwitch : Int := 17
def autofireSwitch : Int := 18
def neoPixel : Int := 19
def ledR : Int := 20
def ledG : Int := 21
def ledB : Int := 22
def camSDA : Int := 23
def camSCL : Int := 24
def periphSDA : Int := 25
def periphSCL : Int := 26
def battery : Int := 27
def analogX : Int := 28
def analogY : Int := 29
def tempPin : Int := 30
def wiiClockGen : Int := 31
def boardInputsCount : Int := 32

/-- The concrete pin functions of `boardInputs_e` in declaration order,
followed by the `boardInputsCount` marker. -/
def boardInputsSeq : List Int :=
  [btnTrigger, btnGunA, btnGunB, btnGunC, btnStart, btnSelect, btnGunUp,
   btnGunDown, btnGunLeft, btnGunRight, btnPedal, btnPedal2, btnPump, btnHome,
   rumblePin, solenoidPin, rumbleSwitch, solenoidSwitch, autofireSwitch,
   neoPixel, ledR, ledG, ledB, camSDA, camSCL, periphSDA, periphSCL, battery,
   analogX, analogY, tempPin, wiiClockGen, boardInputsCount]

/-! ### Boolean toggle settings (`boolTypes_e`) -/

def customPins : Int := 0
def rumble : Int := 1
def solenoid : Int := 2
def autofire : Int := 3
def simplePause : Int := 4
def holdToPause : Int := 5
def commonAnode : Int := 6
def lowButtonsMode : Int := 7
def rumbleFF : Int := 8
def invertStaticPixels : Int := 9
def boolTypesCount : Int := 10

/-- The `boolTypes_e` enumerators in declaration order, ending in the count
marker. -/
def boolTypesSeq : List Int :=
  [customPins, rumble, solenoid, autofire, simplePause, holdToPause,
   commonAnode, lowButtonsMode, rumbleFF, invertStaticPixels, boolTypesCount]

/-! ### Variable settings (`settingsTypes_e`) -/

def rumbleStrength : Int := 0
def rumbleInterval : Int := 1
def solenoidOnLength : Int := 2
def solenoidOffLength : Int := 3
def solenoidHoldLength : Int := 4
def holdToPauseLength : Int := 5
def customLEDcount : Int := 6
def customLEDstatic : Int := 7
def customLEDcolor1 : Int := 8
def customLEDcolor2 : Int := 9
def customLEDcolor3 : Int := 10
def tempWarning : Int := 11
def tempShutdown : Int := 12
def settingsTypesCount : Int := 13

/-- The `settingsTypes_e` enumerators in declaration order, ending in the
count marker. -/
def settingsTypesSeq : List Int :=
  [rumbleStrength, rumbleInterval, solenoidOnLength, solenoidOffLength,
   solenoidHoldLength, holdToPauseLength, customLEDcount, customLEDstatic,
   customLEDcolor1, customLEDcolor2, customLEDcolor3, tempWarning,
   tempShutdown, settingsTypesCount]

/-! ### Profile sync fields (`profSyncTypes_e`) -/

def profTopOffset : Int := 0
def profBottomOffset : Int := 1
def profLeftOffset : Int := 2
def profRightOffset : Int := 3
def profTLled : Int := 4
def profTRled : Int := 5
def profAdjX : Int := 6
def profAdjY : Int := 7
def profIrSens : Int := 8
def profRunMode : Int := 9
def profIrLayout : Int := 10
def profColor : Int := 11
def profDataTypes : Int := 12
def profName : Int := 0xFA

/-- The `profSyncTypes_e` enumerators from `profTopOffset` up to the
`profDataTypes` count marker (excluding the out-of-band `profName`). -/
def profSyncSeq : List Int :=
  [profTopOffset, profBottomOffset, profLeftOffset, profRightOffset, profTLled,
   profTRled, profAdjX, profAdjY, profIrSens, profRunMode, profIrLayout,
   profColor, profDataTypes]

/-! ### Serial command code space (`serialCmdTypes_e`) -/

def sDock1 : Nat := 1
def sDock2 : Nat := 2
def sIRTest : Nat := 5
def sCaliProfile : Nat := 6
def sCaliStart : Nat := 7
def sCaliSens : Nat := 8
def sCaliLayout : Nat := 9
def sTestSolenoid : Nat := 15
def sTestRumble : Nat := 16
def sTestLEDR : Nat := 17
def sTestLEDG : Nat := 18
def sTestLEDB : Nat := 19
def sErrCam : Nat := 0x80
def sErrPeriphGeneric : Nat := 0x81
def sBtnPressed : Nat := 0x90
def sBtnReleased : Nat := 0x91
def sAnalogPosUpd : Nat := 0x92
def sTemperatureUpd : Nat := 0x93
def sCaliStageUpd : Nat := 0x94
def sCaliInfoUpd : Nat := 0x95
def sTestCoords : Nat := 0x96
def sCurrentProf : Nat := 0x97
def sCommitStart : Nat := 0xAA
def sCommitToggles : Nat := 0xAB
def sCommitPins : Nat := 0xAC
def sCommitSettings : Nat := 0xAD
def sCommitProfile : Nat := 0xAE
def sCommitID : Nat := 0xAF
def sCommitPeriphs : Nat := 0xB0
def sGetPins : Nat := 0xC8
def sGetToggles : Nat := 0xC9
def sGetSettings : Nat := 0xCA
def sGetProfile : Nat := 0xCB
def sGetPeriphs : Nat := 0xCC
def sError : Nat := 0xFA
def sSave : Nat := 0xFC
def sClearFlash : Nat := 0xFD
def serialTerminator : Nat := 0xFE

/-- Every value defined in `serialCmdTypes_e`, in declaration order. -/
def serialCmdValues : List Nat :=
  [sDock1, sDock2, sIRTest, sCaliProfile, sCaliStart, sCaliSens, sCaliLayout,
   sTestSolenoid, sTestRumble, sTestLEDR, sTestLEDG, sTestLEDB, sErrCam,
   sErrPeriphGeneric, sBtnPressed, sBtnReleased, sAnalogPosUpd,
   sTemperatureUpd, sCaliStageUpd, sCaliInfoUpd, sTestCoords, sCurrentProf,
   sCommitStart, sCommitToggles, sCommitPins, sCommitSettings, sCommitProfile,
   sCommitID, sCommitPeriphs, sGetPins, sGetToggles, sGetSettings,
   sGetProfile, sGetPeriphs, sError, sSave, sClearFlash, serialTerminator]

/-! ### Layout position constants (`boardBoxPositions_e`) -/

def posNothing : Nat := 0
def posLeft : Nat := 512
def posRight : Nat := 1024
def posMiddle : Nat := 2048

/-- The four region constants of `boardBoxPositions_e`. -/
def regionConstants : List Nat := [posNothing, posLeft, posRight, posMiddle]

def genericKey : String := "generic"

/-! ### Board preset registry (`boardsPresetsMap`) -/

/-- `boardsPresetsMap`: default pin mappings for each supported board.
Key = board, the list maps RP2040 GPIO index to a firmware function. -/
def boardsPresetsMap : List (String × List Int) :=
  [("rpipico",            [btnGunA,       btnGunB,        btnGunC,        btnStart,       btnSelect,
                           btnHome,       btnGunUp,       btnGunDown,     btnGunLeft,     btnGunRight,
                           ledR,          ledG,           ledB,           btnPump,        btnPedal,
                           btnTrigger,    solenoidPin,    rumblePin,      periphSDA,      periphSCL,
                           camSDA,        camSCL,         btnUnmapped,    unavailable,    unavailable,
                           unavailable,   btnUnmapped,    btnUnmapped,    tempPin,        unavailable]),
   ("rpipicow",           [btnGunA,       btnGunB,        btnGunC,        btnStart,       btnSelect,
                           btnHome,       btnGunUp,       btnGunDown,     btnGunLeft,     btnGunRight,
                           ledR,          ledG,           ledB,           btnPump,        btnPedal,
                           btnTrigger,    solenoidPin,    rumblePin,      periphSDA,      periphSCL,
                           camSDA,        camSCL,         btnUnmapped,    unavailable,    unavailable,
                           unavailable,   btnUnmapped,    btnUnmapped,    tempPin,        unavailable]),
   ("adafruitItsyRP2040", [btnUnmapped,   btnUnmapped,    camSDA,         camSCL,         btnPedal,
                           btnUnmapped,   btnTrigger,     btnGunDown,     btnGunLeft,     btnGunUp,
                           btnGunRight,   btnGunC,        btnUnmapped,    unavailable,    unavailable,
                           unavailable,   unavailable,    unavailable,    btnUnmapped,    btnUnmapped,
                           btnUnmapped,   unavailable,    unavailable,    unavailable,    rumblePin,
                           solenoidPin,   btnGunB,        btnGunA,        btnStart,       btnSelect]),
   ("adafruitKB2040",     [btnUnmapped,   btnUnmapped,    camSDA,         camSCL,         btnGunB,
                           rumblePin,     btnGunC,        solenoidPin,    btnSelect,      btnStart,
                           btnGunRight,   unavailable,    unavailable,    unavailable,    unavailable,
                           unavailable,   unavailable,    unavailable,    btnGunUp,       btnGunLeft,
                           btnGunDown,    unavailable,    unavailable,    unavailable,    unavailable,
                           unavailable,   tempPin,        btnHome,        btnTrigger,     btnGunA]),
   ("arduinoNanoRP2040",  [btnTrigger,    btnPedal,       unavailable,    unavailable,    btnGunA,
                           btnGunC,       btnUnmapped,    btnGunB,        unavailable,    unavailable,
                           unavailable,   unavailable,    camSDA,         camSCL,         unavailable,
                           btnUnmapped,   btnUnmapped,    btnUnmapped,    btnUnmapped,    btnUnmapped,
                           btnUnmapped,   btnUnmapped,    unavailable,    unavailable,    unavailable,
                           btnUnmapped,   btnUnmapped,    btnUnmapped,    tempPin,        btnUnmapped]),
   ("waveshareZero",      [btnTrigger,    btnGunA,        btnGunB,        btnGunC,        btnStart,
                           btnSelect,     btnUnmapped,    btnUnmapped,    btnUnmapped,    btnUnmapped,
                           btnUnmapped,   btnUnmapped,    btnUnmapped,    btnUnmapped,    camSDA,
                           camSCL,        unavailable,    btnUnmapped,    btnUnmapped,    btnUnmapped,
                           btnUnmapped,   btnUnmapped,    btnUnmapped,    btnUnmapped,    btnUnmapped,
                           btnUnmapped,   btnUnmapped,    btnUnmapped,    btnUnmapped,    tempPin])]

/-- `valuesNameList`: app-side labels matching `boardInputs_e`
(except `unavailable`), starting with a label for `btnUnmapped`. -/
def valuesNameList : List String :=
  ["Unmapped",
   "Trigger",
   "Button A",
   "Button B",
   "Button C",
   "Start",
   "Select",
   "D-Pad Up",
   "D-Pad Down",
   "D-Pad Left",
   "D-Pad Right",
   "Pedal",
   "Alt Pedal",
   "Pump Action",
   "Home Button",
   "Rumble Signal",
   "Solenoid Signal",
   "Rumble Switch",
   "Solenoid Switch",
   "Autofire Switch",
   "External NeoPixel",
   "RGB LED Red",
   "RGB LED Green",
   "RGB LED Blue",
   "Camera SDA",
   "Camera SCL",
   "Peripherals SDA",
   "Peripherals SCL",
   "Battery Sensor (Unused)",
   "Analog Stick X",
   "Analog Stick Y",
   "Temp Sensor",
   "Wii Cam Clock"]

/-- `boardNames`: app-side display names for board identifiers. -/
def boardNames : List (String × String) :=
  [("rpipico",            "Raspberry Pi Pico (RP2040)"),
   ("rpipicow",           "Raspberry Pi Pico W (RP2040)"),
   ("adafruitItsyRP2040", "Adafruit ItsyBitsy RP2040"),
   ("adafruitKB2040",     "Adafruit Keeboar KB2040"),
   ("arduinoNanoRP2040",  "Arduino Nano Connect RP2040"),
   ("waveshareZero",      "Waveshare Zero RP2040"),
   ("generic",            "Unknown Board")]

/-! ### Layout position tables (`boardsBoxPositions`) -/

/-- `boardsBoxPositions`: graphical placement for each pin in the application.
Key = board; each entry is a grid slot number added to a region constant. -/
def boardsBoxPositions : List (String × List Nat) :=
  [("rpipico",            [1+posLeft,     2+posLeft,      4+posLeft,      5+posLeft,      6+posLeft,
                           7+posLeft,     9+posLeft,      10+posLeft,     11+posLeft,     12+posLeft,
                           14+posLeft,    15+posLeft,     16+posLeft,     17+posLeft,     19+posLeft,
                           20+posLeft,    20+posRight,    19+posRight,    17+posRight,    16+posRight,
                           15+posRight,   14+posRight,    12+posRight,    posNothing,     posNothing,
                           posNothing,    10+posRight,    9+posRight,     7+posRight,     posNothing]),
   ("rpipicow",           [1+posLeft,     2+posLeft,      4+posLeft,      5+posLeft,      6+posLeft,
                           7+posLeft,     9+posLeft,      10+posLeft,     11+posLeft,     12+posLeft,
                           14+posLeft,    15+posLeft,     16+posLeft,     17+posLeft,     19+posLeft,
                           20+posLeft,    20+posRight,    19+posRight,    17+posRight,    16+posRight,
                           15+posRight,   14+posRight,    12+posRight,    posNothing,     posNothing,
                           posNothing,    10+posRight,    9+posRight,     7+posRight,     posNothing]),
   ("adafruitItsyRP2040", [13+posRight,   14+posRight,    12+posRight,    11+posRight,    2+posMiddle,
                           1+posMiddle,   9+posRight,     8+posRight,     7+posRight,     6+posRight,
                           5+posRight,    4+posRight,     14+posLeft,     posNothing,     posNothing,
                           posNothing,    posNothing,     posNothing,     11+posLeft,     12+posLeft,
                           13+posLeft,    posNothing,     posNothing,     posNothing,     9+posLeft,
                           10+posLeft,    5+posLeft,      6+posLeft,      7+posLeft,      8+posLeft]),
   ("adafruitKB2040",     [3+posLeft,     4+posLeft,      7+posLeft,      8+posLeft,      9+posLeft,
                           10+posLeft,    11+posLeft,     12+posLeft,     13+posLeft,     14+posLeft,
                           14+posRight,   posNothing,     posNothing,     posNothing,     posNothing,
                           posNothing,    posNothing,     posNothing,     11+posRight,    13+posRight,
                           12+posRight,   posNothing,     posNothing,     posNothing,     posNothing,
                           posNothing,    10+posRight,    9+posRight,     8+posRight,     7+posRight]),
   ("arduinoNanoRP2040",  [18+posRight,   17+posRight,    posNothing,     posNothing,     4+posRight,
                           6+posRight,    4+posLeft,      5+posRight,     posNothing,     posNothing,
                           posNothing,    posNothing,     11+posLeft,     12+posLeft,     posNothing,
                           13+posRight,   12+posRight,    11+posRight,    10+posRight,    9+posRight,
                           8+posRight,    7+posRight,     posNothing,     posNothing,     posNothing,
                           14+posRight,   7+posLeft,      8+posLeft,      9+posLeft,      10+posLeft]),
   ("waveshareZero",      [2+posRight,    3+posRight,     4+posRight,     5+posRight,     6+posRight,
                           7+posRight,    8+posRight,     9+posRight,     10+posRight,    11+posRight,
                           3+posMiddle,   2+posMiddle,    11+posLeft,     10+posLeft,     9+posLeft,
                           8+posLeft,     posNothing,     posNothing,     posNothing,     posNothing,
                           posNothing,    posNothing,     posNothing,     posNothing,     posNothing,
                           posNothing,    7+posLeft,      6+posLeft,      5+posLeft,      4+posLeft]),
   ("generic",            [1+posLeft,     2+posLeft,      3+posLeft,      4+posLeft,      5+posLeft,
                           6+posLeft,     7+posLeft,      8+posLeft,      9+posLeft,      10+posLeft,
                           11+posLeft,    12+posLeft,     13+posLeft,     14+posLeft,     15+posLeft,
                           16+posLeft,    16+posRight,    15+posRight,    14+posRight,    13+posRight,
                           12+posRight,   11+posRight,    10+posRight,    9+posRight,     8+posRight,
                           7+posRight,    6+posRight,     5+posRight,     4+posRight,     3+posRight])]

/-! ### Alternate presets (`boardsAltPresets`) -/

/-- `boardsAltPresets`: alternative pin mappings for supported boards; each
entry is (board key, preset label, pin mapping). -/
def boardsAltPresets : List (String × String × List Int) :=
  [("rpipico",            ("Test",
                          [btnPump,       btnPedal,       btnUnmapped,    btnUnmapped,    btnUnmapped,
                           btnUnmapped,   btnUnmapped,    btnUnmapped,    btnUnmapped,    btnUnmapped,
                           btnUnmapped,   btnUnmapped,    btnUnmapped,    btnUnmapped,    btnUnmapped,
                           btnUnmapped,   btnUnmapped,    btnUnmapped,    btnUnmapped,    btnUnmapped,
                           btnUnmapped,   btnUnmapped,    btnUnmapped,    unavailable,    unavailable,
                           unavailable,   btnUnmapped,    btnUnmapped,    btnUnmapped,    unavailable])),
   ("rpipico",            ("Test 2",
                          [btnGunA,       btnTrigger,     btnUnmapped,    btnUnmapped,    btnUnmapped,
                           btnUnmapped,   btnUnmapped,    btnUnmapped,    btnUnmapped,    btnUnmapped,
                           btnUnmapped,   btnUnmapped,    btnUnmapped,    btnUnmapped,    btnUnmapped,
                           btnUnmapped,   btnUnmapped,    btnUnmapped,    btnUnmapped,    btnUnmapped,
                           btnUnmapped,   btnUnmapped,    btnUnmapped,    unavailable,    unavailable,
                           unavailable,   btnUnmapped,    btnUnmapped,    btnUnmapped,    unavailable])),
   ("adafruitItsyRP2040", ("SAMCO 2.0",
                          [btnUnmapped,   btnUnmapped,    camSDA,         camSCL,         btnPedal,
                           btnUnmapped,   btnTrigger,     btnGunDown,     btnGunLeft,     btnGunUp,
                           btnGunRight,   btnHome,        btnUnmapped,    unavailable,    unavailable,
                           unavailable,   unavailable,    unavailable,    btnUnmapped,    btnUnmapped,
                           btnUnmapped,   unavailable,    unavailable,    unavailable,    rumblePin,
                           solenoidPin,   btnGunB,        btnGunA,        btnStart,       btnSelect])),
   ("adafruitItsyRP2040", ("SAMCO 1.1",
                          [btnUnmapped,   btnUnmapped,    camSDA,         camSCL,         btnUnmapped,
                           btnUnmapped,   btnGunA,        btnGunB,        rumblePin,      btnHome,
                           btnTrigger,    btnUnmapped,    btnUnmapped,    unavailable,    unavailable,
                           unavailable,   unavailable,    unavailable,    btnUnmapped,    btnUnmapped,
                           btnUnmapped,   unavailable,    unavailable,    unavailable,    btnUnmapped,
                           btnUnmapped,   btnUnmapped,    btnPedal,       btnUnmapped,    btnUnmapped]))]

/-- Every pin mapping in the registry: the default mapping of every board in
`boardsPresetsMap` and every alternate mapping in `boardsAltPresets`. -/
def allMappings : List (List Int) :=
  boardsPresetsMap.map Prod.snd ++ boardsAltPresets.map (fun e => e.2.2)

/-! ### Layout position codec -/

/-- Modelled from the spec: `encode(region, slot)` combines the two fields of
a LayoutPosition by addition (the codec itself is app-side code not present in
this repository; only the region constants of `boardBoxPositions_e` are). -/
def encode (region slot : Nat) : Nat := region + slot

/-- Modelled from the spec: `decode` recovers the region as the largest of the
four `boardBoxPositions_e` constants not exceeding the packed value, and the
slot as the remainder (the codec itself is app-side code not present in this
repository). -/
def decode (v : Nat) : Nat × Nat :=
  if posMiddle ≤ v then (posMiddle, v - posMiddle)
  else if posRight ≤ v then (posRight, v - posRight)
  else if posLeft ≤ v then (posLeft, v - posLeft)
  else (posNothing, v)

/-! ### Default-preset lookup -/

/-- Modelled from the spec: `lookupDefault(board)` looks the board identifier
up in `boardsPresetsMap` and falls back to the registry entry for the reserved
`generic` token when the identifier is unrecognized (the lookup routine itself
is app-side code not present in this repository; the registry is). -/
def lookupDefault (board : String) : Option (List Int) :=
  match boardsPresetsMap.lookup board with
  | some m => some m
  | none => boardsPresetsMap.lookup genericKey

/-! ### Serial command classification -/

/-- The purpose groups of the serial command code space. -/
inductive CmdClass where
  | docking
  | modeToggle
  | testTrigger
  | errorCode
  | statusUpd
  | commit
  | get
  | control
  | unassigned
deriving DecidableEq

/-- Modelled from the spec: the partition-membership query classifying a byte
value by the documented byte ranges of the serial command code space (the
query itself is consumer-side code not present in this repository; the code
values of `serialCmdTypes_e` are). -/
def classify (b : Nat) : CmdClass :=
  if 1 ≤ b ∧ b ≤ 4 then CmdClass.docking
  else if 5 ≤ b ∧ b ≤ 9 then CmdClass.modeToggle
  else if 15 ≤ b ∧ b ≤ 19 then CmdClass.testTrigger
  else if 0x80 ≤ b ∧ b ≤ 0x8F then CmdClass.errorCode
  else if 0x90 ≤ b ∧ b ≤ 0x9F then CmdClass.statusUpd
  else if 0xAA ≤ b ∧ b ≤ 0xB5 then CmdClass.commit
  else if 0xC8 ≤ b ∧ b ≤ 0xD2 then CmdClass.get
  else if b = 0xFA ∨ b = 0xFC ∨ b = 0xFD ∨ b = 0xFE then CmdClass.control
  else CmdClass.unassigned

/-- Each code of `serialCmdTypes_e` paired with the purpose group under which
it is declared in the source (the comment groups of the enumeration). -/
def declaredSerialCmds : List (Nat × CmdClass) :=
  [(sDock1, CmdClass.docking), (sDock2, CmdClass.docking),
   (sIRTest, CmdClass.modeToggle), (sCaliProfile, CmdClass.modeToggle),
   (sCaliStart, CmdClass.modeToggle), (sCaliSens, CmdClass.modeToggle),
   (sCaliLayout, CmdClass.modeToggle),
   (sTestSolenoid, CmdClass.testTrigger), (sTestRumble, CmdClass.testTrigger),
   (sTestLEDR, CmdClass.testTrigger), (sTestLEDG, CmdClass.testTrigger),
   (sTestLEDB, CmdClass.testTrigger),
   (sErrCam, CmdClass.errorCode), (sErrPeriphGeneric, CmdClass.errorCode),
   (sBtnPressed, CmdClass.statusUpd), (sBtnReleased, CmdClass.statusUpd),
   (sAnalogPosUpd, CmdClass.statusUpd), (sTemperatureUpd, CmdClass.statusUpd),
   (sCaliStageUpd, CmdClass.statusUpd), (sCaliInfoUpd, CmdClass.statusUpd),
   (sTestCoords, CmdClass.statusUpd), (sCurrentProf, CmdClass.statusUpd),
   (sCommitStart, CmdClass.commit), (sCommitToggles, CmdClass.commit),
   (sCommitPins, CmdClass.commit), (sCommitSettings, CmdClass.commit),
   (sCommitProfile, CmdClass.commit), (sCommitID, CmdClass.commit),
   (sCommitPeriphs, CmdClass.commit),
   (sGetPins, CmdClass.get), (sGetToggles, CmdClass.get),
   (sGetSettings, CmdClass.get), (sGetProfile, CmdClass.get),
   (sGetPeriphs, CmdClass.get),
   (sError, CmdClass.control), (sSave, CmdClass.control),
   (sClearFlash, CmdClass.control), (serialTerminator, CmdClass.control)]

def emptyLabel : String := ""

/-- Label lookup used by the app: function value `f` (with `btnUnmapped ≤ f`)
is labelled by entry `f + 1` of `valuesNameList`. -/
def labelAt (f : Int) : String := valuesNameList.getD (f + 1).toNat emptyLabel

/-! ### Helper lemmas -/

lemma decode_encode (r s : Nat) (hr : r ∈ regionConstants) (hs : s < 512) :
    decode (r + s) = (r, s) := by
  have hcases : r = 0 ∨ r = 512 ∨ r = 1024 ∨ r = 2048 := by
    simpa [regionConstants, posNothing, posLeft, posRight, posMiddle] using hr
  simp only [decode, posNothing, posLeft, posRight, posMiddle]
  rcases hcases with h | h | h | h <;> subst h <;>
    split_ifs <;> simp_all <;> omega

/-! ### Claim theorems -/

/-- C1 counterexample: the default-preset registry `boardsPresetsMap` has no
entry for the reserved token `generic`, so the claimed `generic` fallback
entry does not exist there. -/
theorem boardsPresetsMap_generic_missing :
    boardsPresetsMap.lookup genericKey = none := by decide

/-- C1 (amended): `boardsPresetsMap` contains no entry for `generic`, so the
generic fallback of `lookupDefault` never produces a mapping — for every board
identifier, `lookupDefault` coincides with the plain registry lookup and
unrecognized identifiers yield no mapping; the `generic` token is present in
`boardsBoxPositions` and `boardNames` instead. -/
theorem lookupDefault_no_generic_fallback :
    boardsPresetsMap.lookup genericKey = none ∧
    (∀ b : String, lookupDefault b = boardsPresetsMap.lookup b) ∧
    (boardsBoxPositions.lookup genericKey).isSome = true ∧
    (boardNames.lookup genericKey).isSome = true := by
  refine ⟨by decide, ?_, by decide, by decide⟩
  intro b
  unfold lookupDefault
  cases h : boardsPresetsMap.lookup b with
  | some m => rfl
  | none => exact (by decide : boardsPresetsMap.lookup genericKey = none)

/-- C2: for every region constant of `boardBoxPositions_e` and every slot
below 512, decoding the encoded layout position returns the original pair;
in particular `encode posLeft 7 = 519` and `decode 519 = (posLeft, 7)`. -/
theorem encode_decode_roundtrip :
    (∀ r ∈ regionConstants, ∀ s : Nat, s < 512 → decode (encode r s) = (r, s)) ∧
    encode posLeft 7 = 519 ∧ decode 519 = (posLeft, 7) := by
  refine ⟨?_, by decide, by decide⟩
  intro r hr s hs
  simpa [encode] using decode_encode r s hr hs

/-- C2 witness: the round-trip law evaluated at region `posLeft`, slot 7. -/
theorem encode_decode_roundtrip_witness :
    decode (encode posLeft 7) = (posLeft, 7) :=
  encode_decode_roundtrip.1 posLeft (by decide) 7 (by decide)

/-- C3: the values of `serialCmdTypes_e` are pairwise distinct and none lies
in the printable-ASCII range 33–127. -/
theorem serialCmdValues_distinct_nonprintable :
    serialCmdValues.Nodup ∧
    ∀ v ∈ serialCmdValues, ¬(33 ≤ v ∧ v ≤ 127) := by
  constructor
  · decide
  · decide

/-- C3 witness: the non-printable property evaluated at `sCommitStart`. -/
theorem serialCmdValues_distinct_nonprintable_witness :
    ¬(33 ≤ sCommitStart ∧ sCommitStart ≤ 127) :=
  serialCmdValues_distinct_nonprintable.2 sCommitStart (by decide)

/-- C4: in every default mapping of `boardsPresetsMap` and every alternate
mapping of `boardsAltPresets`, each non-sentinel pin function (value ≥ 0)
occurs at most once among the mapping's entries. -/
theorem mappings_no_duplicate_function :
    ∀ m ∈ allMappings, ∀ f : Int, 0 ≤ f → m.count f ≤ 1 := by
  have hb : ∀ m ∈ allMappings, ∀ f ∈ m, 0 ≤ f → m.count f ≤ 1 := by decide
  intro m hm f hf
  by_cases hmem : f ∈ m
  · exact hb m hm f hmem hf
  · simp [List.count_eq_zero_of_not_mem hmem]

/-- C4 witness: uniqueness of `btnGunA` evaluated on the first registry
mapping (the `rpipico` default). -/
theorem mappings_no_duplicate_function_witness :
    (allMappings.headI).count btnGunA ≤ 1 :=
  mappings_no_duplicate_function allMappings.headI (by decide) btnGunA (by decide)

/-- C5: every default mapping, every alternate mapping and every layout
vector in the registry has exactly 30 entries, the RP2040 GPIO count. -/
theorem registry_lengths_match_gpio_count :
    (∀ p ∈ boardsPresetsMap, p.2.length = 30) ∧
    (∀ e ∈ boardsAltPresets, e.2.2.length = 30) ∧
    (∀ q ∈ boardsBoxPositions, q.2.length = 30) := by
  refine ⟨by decide, by decide, by decide⟩

/-- C5 witness: the length property evaluated on the first entry of
`boardsPresetsMap` (the `rpipico` default). -/
theorem registry_lengths_match_gpio_count_witness :
    (boardsPresetsMap.headI).2.length = 30 :=
  registry_lengths_match_gpio_count.1 boardsPresetsMap.headI (by decide)

/-- C6: every code of `serialCmdTypes_e` classifies (by the documented byte
ranges) into the purpose group under which it is declared; in particular
`0xAA` is the commit code `sCommitStart` and `0xC8` is the get code
`sGetPins`. -/
theorem serialCmds_classified_as_declared :
    (∀ p ∈ declaredSerialCmds, classify p.1 = p.2) ∧
    classify 0xAA = CmdClass.commit ∧ sCommitStart = 0xAA ∧
    classify 0xC8 = CmdClass.get ∧ sGetPins = 0xC8 := by
  refine ⟨by decide, by decide, by decide, by decide, by decide⟩

/-- C6 witness: the classification evaluated at the declared entry for
`sCommitStart`. -/
theorem serialCmds_classified_as_declared_witness :
    classify sCommitStart = CmdClass.commit :=
  serialCmds_classified_as_declared.1 (sCommitStart, CmdClass.commit) (by decide)

/-- C7: the `boardInputs_e`, `boolTypes_e`, `settingsTypes_e` and
`profSyncTypes_e` enumerations assign consecutive values 0, 1, 2, … up to
their count markers with no gaps or duplicates, and the sentinels satisfy
`unavailable < btnUnmapped < btnTrigger`. -/
theorem enums_consecutive_no_gaps :
    boardInputsSeq = (List.range 33).map Int.ofNat ∧
    boolTypesSeq = (List.range 11).map Int.ofNat ∧
    settingsTypesSeq = (List.range 14).map Int.ofNat ∧
    profSyncSeq = (List.range 13).map Int.ofNat ∧
    unavailable < btnUnmapped ∧ btnUnmapped < btnTrigger := by
  refine ⟨by decide, by decide, by decide, by decide, by decide, by decide⟩

/-- C8: for every board present in both `boardsPresetsMap` and
`boardsBoxPositions`, each GPIO index whose default mapping entry is
`unavailable` has layout position `posNothing`. -/
theorem unavailable_pins_pos_nothing :
    ∀ p ∈ boardsPresetsMap, ∀ q ∈ boardsBoxPositions, p.1 = q.1 →
      ∀ i : Nat, i < 30 → p.2.getD i 0 = unavailable →
        q.2.getD i 1 = posNothing := by
  decide

/-- C8 witness: the convention evaluated at board `rpipico`, GPIO 23
(an `unavailable` pin mapped to `posNothing`). -/
theorem unavailable_pins_pos_nothing_witness :
    (boardsBoxPositions.headI).2.getD 23 1 = posNothing :=
  unavailable_pins_pos_nothing boardsPresetsMap.headI (by decide)
    boardsBoxPositions.headI (by decide) (by decide) 23 (by decide) (by decide)

/-- C9: every packed value stored in `boardsBoxPositions` decomposes as
`region + slot` for exactly one region constant of `boardBoxPositions_e` and
slot below 512 — no slot spills into the region field. -/
theorem boxPositions_no_overflow :
    ∀ q ∈ boardsBoxPositions, ∀ v ∈ q.2,
      ∃! rs : Nat × Nat,
        rs.1 ∈ regionConstants ∧ rs.2 < 512 ∧ rs.1 + rs.2 = v := by
  have hdec : ∀ q ∈ boardsBoxPositions, ∀ v ∈ q.2,
      (decode v).1 ∈ regionConstants ∧ (decode v).2 < 512 ∧
        (decode v).1 + (decode v).2 = v := by decide
  intro q hq v hv
  obtain ⟨h1, h2, h3⟩ := hdec q hq v hv
  refine ⟨decode v, ⟨h1, h2, h3⟩, ?_⟩
  rintro ⟨r, s⟩ ⟨hr, hs, hrs⟩
  have hde := decode_encode r s hr hs
  rw [hrs] at hde
  exact hde.symm

/-- C9 witness: the unique decomposition evaluated at the stored value 513
(GPIO 0 of `rpipico`, slot 1 on the left grid). -/
theorem boxPositions_no_overflow_witness :
    ∃! rs : Nat × Nat,
      rs.1 ∈ regionConstants ∧ rs.2 < 512 ∧ rs.1 + rs.2 = 513 :=
  boxPositions_no_overflow boardsBoxPositions.headI (by decide) 513 (by decide)

/-- C10: `valuesNameList` has `boardInputsCount + 1 = 33` entries, so the
label lookup at index `f + 1` is in bounds for every function value `f` with
`btnUnmapped ≤ f < boardInputsCount`, and sample entries label their
functions (`btnUnmapped`, `btnTrigger`, `camSDA`, `wiiClockGen`). -/
theorem valuesNameList_covers_functions :
    valuesNameList.length = (boardInputsCount + 1).toNat ∧
    valuesNameList.length = 33 ∧
    (∀ f : Int, btnUnmapped ≤ f → f < boardInputsCount →
      (f + 1).toNat < valuesNameList.length) ∧
    labelAt btnUnmapped = "Unmapped" ∧
    labelAt btnTrigger = "Trigger" ∧
    labelAt camSDA = "Camera SDA" ∧
    labelAt wiiClockGen = "Wii Cam Clock" := by
  refine ⟨by decide, by decide, ?_, by decide, by decide, by decide, by decide⟩
  intro f h1 h2
  have hl : valuesNameList.length = 33 := by decide
  rw [hl]
  unfold btnUnmapped at h1
  unfold boardInputsCount at h2
  omega

/-- C10 witness: the in-bounds property evaluated at `camSDA`. -/
theorem valuesNameList_covers_functions_witness :
    (camSDA + 1).toNat < valuesNameList.length :=
  valuesNameList_covers_functions.2.2.1 camSDA (by decide) (by decide)

/-- C1 witness: the amended lookup behaviour evaluated at the `generic`
token itself. -/
theorem lookupDefault_no_generic_fallback_witness :
    lookupDefault genericKey = boardsPresetsMap.lookup genericKey :=
  lookupDefault_no_generic_fallback.2.1 genericKey
